import Mathlib

/-!
Verification development for the Factur-X invoice toolchain.

The Python sources are embedded shallowly:

* `lxml`/`ElementTree` element trees become the inductive `XElem`
  (tag, attributes, optional text, ordered children).  Qualified tag
  names such as `f"\x7b{NAMESPACES['ram']}\x7dID"` are rendered as
  `"ram:ID"` strings: the namespace map is a fixed constant in every
  source file, so the prefix form identifies elements faithfully.
* Python dictionaries of invoice data become structures whose fields are
  `Option`-valued; `dict.get(k, d)` becomes `Option.getD`.
* JSON numbers are modelled as exact rationals (`ℚ`); the fixed-point
  formatting `f"{x:.2f}"` becomes `format2`, which rounds half-to-even
  exactly as Python's float formatting does at tie-free values.
* The pikepdf object graph becomes `PdfState`: a store of indirect
  objects (the object id is the index into the store) plus the root
  catalog dictionary.  `Pdf.make_indirect` / `Pdf.make_stream` append a
  new object to the store and return its id, which is exactly what
  `QPDF::makeIndirectObject` does for a direct object.
-/

set_option linter.unusedVariables false
set_option maxRecDepth 8192
set_option maxHeartbeats 1600000

namespace FacturX

/-- Model of an `lxml`/`ElementTree` element: a tag, its attributes, its
optional text, and its ordered list of children. -/
inductive XElem : Type where
  | node (tag : String) (attrs : List (String × String))
      (text : Option String) (children : List XElem)

namespace XElem

def tag : XElem → String
  | node t _ _ _ => t

def attrsOf : XElem → List (String × String)
  | node _ a _ _ => a

def text : XElem → Option String
  | node _ _ t _ => t

def children : XElem → List XElem
  | node _ _ _ c => c

/-- Tags of the direct children, in document order. -/
def childrenTags (e : XElem) : List String :=
  e.children.map tag

/-- First direct child with the given tag (`Element.find` on a plain tag). -/
def findChild (e : XElem) (t : String) : Option XElem :=
  e.children.find? (fun c => c.tag == t)

/-- All direct children with the given tag, in document order. -/
def filterChildren (e : XElem) (t : String) : List XElem :=
  e.children.filter (fun c => c.tag == t)

end XElem

/-- Element with children only (no text, no attributes). -/
def el (t : String) (cs : List XElem) : XElem :=
  XElem.node t [] none cs

/-- Leaf element carrying text. -/
def leaf (t : String) (s : String) : XElem :=
  XElem.node t [] (some s) []

/-- Leaf element carrying attributes and text. -/
def leafA (t : String) (a : List (String × String)) (s : String) : XElem :=
  XElem.node t a (some s) []

/-- Qualified name in the CrossIndustryInvoice namespace. -/
def rsm (t : String) : String := "rsm:" ++ t

/-- Qualified name in the ReusableAggregate... namespace. -/
def ram (t : String) : String := "ram:" ++ t

/-- Qualified name in the UnqualifiedDataType namespace. -/
def udt (t : String) : String := "udt:" ++ t

/-! ## Exact decimal arithmetic

`generate_facturx_xml.py` does its money arithmetic on Python floats and
renders with `f"{x:.2f}"`.  We model the amounts as exact rationals and
the rendering as round-half-to-even on the exact value, which agrees
with Python on every value that is tie-free at the second decimal (all
values appearing in the theorems below are dyadic and tie-free). -/

/-- Round a rational to the nearest integer, ties to even. -/
def roundHalfEven (x : ℚ) : ℤ :=
  if x - ⌊x⌋ < 1/2 then ⌊x⌋
  else if (1:ℚ)/2 < x - ⌊x⌋ then ⌊x⌋ + 1
  else if ⌊x⌋ % 2 = 0 then ⌊x⌋ else ⌊x⌋ + 1

/-- Number of cents after rounding to two decimals. -/
def round2cents (q : ℚ) : ℤ := roundHalfEven (100 * q)

/-- The exact value carried by the two-decimal rendering of `q`. -/
def round2 (q : ℚ) : ℚ := (round2cents q : ℚ) / 100

/-- Left-pad a digit string with zeros up to length `k`. -/
def padLeftZeros (s : String) (k : Nat) : String :=
  if k ≤ s.length then s
  else String.mk (List.replicate (k - s.length) '0') ++ s

/-- Model of Python's `f"{x:.2f}"` on an exact value. -/
def format2 (q : ℚ) : String :=
  let c := round2cents q
  let a := c.natAbs
  (if c < 0 then "-" else "") ++ toString (a / 100) ++ "." ++
    padLeftZeros (toString (a % 100)) 2

/-- Drop trailing zeros of a digit string, keeping at least one digit. -/
def stripTrailingZeros (s : String) : String :=
  let t := s.data.reverse.dropWhile (fun c => c == '0')
  if t.isEmpty then "0" else String.mk t.reverse

/-- Model of Python's `str()` on a float whose exact value is `q`
(used only for texts no theorem below inspects). -/
def pyFloatStr (q : ℚ) : String :=
  match (List.range 40).find? (fun k => ((10:ℤ)^k) % (q.den : ℤ) = 0) with
  | some k =>
      let m : ℤ := q.num * ((10:ℤ)^k / (q.den : ℤ))
      let a := m.natAbs
      (if m < 0 then "-" else "") ++ toString (a / 10^k) ++ "." ++
        stripTrailingZeros (padLeftZeros (toString (a % 10^k)) k)
  | none => toString q

/-- Model of Python's `str()` on a JSON number: integers print without a
decimal point, other values like floats. -/
def pyNumStr (q : ℚ) : String :=
  if q.den = 1 then toString q.num else pyFloatStr q

/-! ## `generate_facturx_xml.py` (root script)

Embedding of `generate_facturx_xml(invoice_data, output_file)`.  The
function never raises on any dictionary input (every read uses
`dict.get` with a default) and unconditionally writes the tree and
returns `True`; we model the tree it writes. -/

/-- The `seller` / `buyer` sub-dictionaries as the root script reads them. -/
structure RParty where
  name : Option String := none
  address : Option String := none
  city : Option String := none
  postal_code : Option String := none
  country : Option String := none
  vat_number : Option String := none

/-- One entry of `invoice_data['items']` as the root script reads it. -/
structure RItem where
  description : Option String := none
  product_id : Option String := none
  quantity : Option ℚ := none
  unit_price : Option ℚ := none
  vat_rate : Option ℚ := none
  unit_of_measure : Option String := none

/-- The `invoice_data` dictionary as the root script reads it. -/
structure RInvoice where
  invoice_number : Option String := none
  issue_date : Option String := none
  due_date : Option String := none
  notes : Option String := none
  purchase_order_ref : Option String := none
  payment_terms : Option String := none
  currency : Option String := none
  seller : RParty := {}
  buyer : RParty := {}
  items : List RItem := []
  subtotal : Option ℚ := none
  vat_total : Option ℚ := none
  total : Option ℚ := none

/-- Python's `s.replace('-', '')`: removes every dash. -/
def removeDashes (s : String) : String :=
  String.mk (s.data.filter (fun c => !(c == '-')))

/-- `format_date`: both branches of the source (strptime-reformat on a
well-formed `YYYY-MM-DD`, or stripping `-` otherwise) yield the input
with the dashes removed. -/
def formatDate (s : String) : String := removeDashes s

/-- Accumulate an amount under a rate key, Python-dict style: an existing
key keeps its position, a new key is appended at the end. -/
def assocAdd (l : List (ℚ × ℚ)) (k v : ℚ) : List (ℚ × ℚ) :=
  match l with
  | [] => [(k, v)]
  | (k', v') :: t => if k' = k then (k', v' + v) :: t else (k', v') :: assocAdd t k v

/-- One iteration of the grouping loop at lines 153–158 of the root
script: `tax_rates[rate] += quantity * unit_price` with defaults. -/
def taxStep (acc : List (ℚ × ℚ)) (it : RItem) : List (ℚ × ℚ) :=
  assocAdd acc (it.vat_rate.getD 0) (it.quantity.getD 0 * it.unit_price.getD 0)

/-- The `tax_rates` dictionary built at lines 152–158 of the root script:
items grouped by exact equality of `vat_rate`, in insertion order, each
group accumulating the raw `quantity * unit_price` amounts. -/
def taxRatesOf (items : List RItem) : List (ℚ × ℚ) :=
  items.foldl taxStep []

/-- One `ram:ApplicableTradeTax` settlement entry (lines 161–177). -/
def rootTaxElem (rv : ℚ × ℚ) : XElem :=
  el (ram "ApplicableTradeTax")
    [ leaf (ram "CalculatedAmount") (format2 (rv.2 * rv.1 / 100))
    , leaf (ram "TypeCode") "VAT"
    , leaf (ram "BasisAmount") (format2 rv.2)
    , leaf (ram "CategoryCode") "S"
    , leaf (ram "RateApplicablePercent") (format2 rv.1) ]

/-- One line item element of the root script (lines 199–240); note the
`rsm` namespace on the container tag, as in line 200 of the source. -/
def rootLineItem (idx : Nat) (it : RItem) : XElem :=
  el (rsm "IncludedSupplyChainTradeLineItem")
    [ el (ram "AssociatedDocumentLineDocument")
        [ leaf (ram "LineID") (toString idx) ]
    , el (ram "SpecifiedTradeProduct")
        ([ leaf (ram "Name") (it.description.getD "") ] ++
          (match it.product_id with
            | some p => [leaf (ram "SellerAssignedID") p]
            | none => []))
    , el (ram "SpecifiedLineTradeAgreement")
        [ el (ram "NetPriceProductTradePrice")
            [ leaf (ram "ChargeAmount") (format2 (it.unit_price.getD 0))
            , leafA (ram "BasisQuantity")
                [("unitCode", it.unit_of_measure.getD "EA")] "1" ] ]
    , el (ram "SpecifiedLineTradeDelivery")
        [ leafA (ram "BilledQuantity")
            [("unitCode", it.unit_of_measure.getD "EA")]
            (pyNumStr (it.quantity.getD 0)) ]
    , el (ram "SpecifiedLineTradeSettlement")
        [ el (ram "ApplicableTradeTax")
            [ leaf (ram "TypeCode") "VAT"
            , leaf (ram "CategoryCode") "S"
            , leaf (ram "RateApplicablePercent") (format2 (it.vat_rate.getD 0)) ]
        , el (ram "SpecifiedTradeSettlementLineMonetarySummation")
            [ leaf (ram "LineTotalAmount")
                (format2 (it.quantity.getD 0 * it.unit_price.getD 0)) ] ] ]

/-- The header trade agreement section of the root script (lines 69–120). -/
def rootAgreement (inv : RInvoice) : XElem :=
  el (ram "ApplicableHeaderTradeAgreement")
    ([ el (ram "SellerTradeParty")
        ([ leaf (ram "Name") (inv.seller.name.getD "")
         , el (ram "PostalTradeAddress")
             [ leaf (ram "LineOne") (inv.seller.address.getD "")
             , leaf (ram "CityName") (inv.seller.city.getD "")
             , leaf (ram "PostcodeCode") (inv.seller.postal_code.getD "")
             , leaf (ram "CountryID") (inv.seller.country.getD "") ] ] ++
          (match inv.seller.vat_number with
            | some v =>
                [el (ram "SpecifiedTaxRegistration")
                  [leafA (ram "ID") [("schemeID", "VA")] v]]
            | none => []))
     , el (ram "BuyerTradeParty")
        ([ leaf (ram "Name") (inv.buyer.name.getD "")
         , el (ram "PostalTradeAddress")
             [ leaf (ram "LineOne") (inv.buyer.address.getD "")
             , leaf (ram "CityName") (inv.buyer.city.getD "")
             , leaf (ram "PostcodeCode") (inv.buyer.postal_code.getD "")
             , leaf (ram "CountryID") (inv.buyer.country.getD "") ] ] ++
          (match inv.buyer.vat_number with
            | some v =>
                [el (ram "SpecifiedTaxRegistration")
                  [leafA (ram "ID") [("schemeID", "VA")] v]]
            | none => [])) ] ++
      (if (inv.purchase_order_ref.getD "") ≠ "" then
        [el (ram "BuyerOrderReferencedDocument")
          [leaf (ram "IssuerAssignedID") (inv.purchase_order_ref.getD "")]]
      else []))

/-- The header trade delivery section of the root script (lines 122–128). -/
def rootDelivery (inv : RInvoice) : XElem :=
  el (ram "ApplicableHeaderTradeDelivery")
    [ el (ram "ActualDeliverySupplyChainEvent")
        [ el (ram "OccurrenceDateTime")
            [ leafA (udt "DateTimeString") [("format", "102")]
                (formatDate (inv.issue_date.getD "")) ] ] ]

/-- The header trade settlement section of the root script (lines 130–196). -/
def rootSettlement (inv : RInvoice) : XElem :=
  el (ram "ApplicableHeaderTradeSettlement")
    ([ leaf (ram "PaymentReference") (inv.invoice_number.getD "")
     , leaf (ram "InvoiceCurrencyCode") (inv.currency.getD "EUR")
     , el (ram "SpecifiedTradePaymentTerms")
        ([ el (ram "DueDateDateTime")
            [ leafA (udt "DateTimeString") [("format", "102")]
                (formatDate (inv.due_date.getD "")) ] ] ++
          (if (inv.payment_terms.getD "") ≠ "" then
            [leaf (ram "Description") (inv.payment_terms.getD "")]
          else [])) ] ++
      (taxRatesOf inv.items).map rootTaxElem ++
      [ el (ram "SpecifiedTradeSettlementHeaderMonetarySummation")
          [ leaf (ram "LineTotalAmount") (format2 (inv.subtotal.getD 0))
          , leaf (ram "TaxBasisTotalAmount") (format2 (inv.subtotal.getD 0))
          , leafA (ram "TaxTotalAmount") [("currencyID", inv.currency.getD "EUR")]
              (format2 (inv.vat_total.getD 0))
          , leaf (ram "GrandTotalAmount") (format2 (inv.total.getD 0))
          , leaf (ram "DuePayableAmount") (format2 (inv.total.getD 0)) ] ])

/-- The `rsm:SupplyChainTradeTransaction` of the root script: agreement,
delivery and settlement are appended first (lines 70, 123, 131); the
line-item loop at line 199 runs afterwards, so every line item lands
after the settlement section. -/
def rootTransaction (inv : RInvoice) : XElem :=
  el (rsm "SupplyChainTradeTransaction")
    ([rootAgreement inv, rootDelivery inv, rootSettlement inv] ++
      inv.items.enum.map (fun p => rootLineItem (p.1 + 1) p.2))

/-- `rsm:ExchangedDocumentContext` of the root script (lines 43–46). -/
def rootContext : XElem :=
  el (rsm "ExchangedDocumentContext")
    [ el (ram "GuidelineSpecifiedDocumentContextParameter")
        [ leaf (ram "ID") "urn:cen.eu:en16931:2017" ] ]

/-- `rsm:ExchangedDocument` of the root script (lines 49–64). -/
def rootExchangedDoc (inv : RInvoice) : XElem :=
  el (rsm "ExchangedDocument")
    ([ leaf (ram "ID") (inv.invoice_number.getD "")
     , leaf (ram "TypeCode") "380"
     , el (ram "IssueDateTime")
        [ leafA (udt "DateTimeString") [("format", "102")]
            (formatDate (inv.issue_date.getD "")) ] ] ++
      (if (inv.notes.getD "") ≠ "" then
        [el (ram "IncludedNote") [leaf (ram "Content") (inv.notes.getD "")]]
      else []))

/-- The document tree `generate_facturx_xml` of the root script writes. -/
def rootGenerate (inv : RInvoice) : XElem :=
  XElem.node (rsm "CrossIndustryInvoice") [] none
    [rootContext, rootExchangedDoc inv, rootTransaction inv]

/-! ## `src/facturxapp/services/xml_service.py` (`XMLService`)

Embedding of `XMLService.generate_facturx_xml`.  The service never
raises for missing dictionary keys (every read is a `dict.get` with a
default; the schema validation helper catches its own exceptions and
returns a boolean), so the generator is a total function of the input
dictionary and of the clock reading used as the issue-date default at
line 113 (`datetime.now().strftime('%Y%m%d')`), which we pass in as the
explicit parameter `now`. -/

/-- `seller` / `buyer` sub-dictionaries as `XMLService` reads them. -/
structure XSParty where
  name : Option String := none
  vat_number : Option String := none

/-- One line-item dictionary as `XMLService` reads it. -/
structure XSItem where
  description : Option String := none
  quantity : Option ℚ := none
  unit_price : Option ℚ := none

/-- The invoice-data dictionary as `XMLService` reads it. -/
structure XSData where
  invoice_number : Option String := none
  invoice_date : Option String := none
  line_items : Option (List XSItem) := none
  items : Option (List XSItem) := none
  seller : XSParty := {}
  buyer : XSParty := {}
  creditor_reference : Option String := none
  payment_reference : Option String := none
  tax_currency : Option String := none
  currency : Option String := none
  payee : Option XSParty := none
  billing_period : Option (String × String) := none
  allowances : Option (List ℚ) := none
  due_date : Option String := none
  total_amount : Option ℚ := none
  tax : Option ℚ := none
  referenced_documents : Option (List String) := none
  accounting_account : Option String := none

/-- Zero or one child built from an optional dictionary entry. -/
def optNode {α : Type} (o : Option α) (f : α → XElem) : List XElem :=
  match o with
  | some a => [f a]
  | none => []

/-- Line items: `data.get('line_items')`, falling back to
`data.get('items', [])` when absent (lines 59–61). -/
def xsEffectiveItems (d : XSData) : List XSItem :=
  match d.line_items with
  | some l => l
  | none => d.items.getD []

/-- `_create_root_element` plus `_add_header`, first part (lines 90–96). -/
def xsHeaderContext : XElem :=
  el (rsm "ExchangedDocumentContext")
    [ el (ram "GuidelineSpecifiedDocumentContextParameter")
        [ leaf (ram "ID") "urn:factur-x:pdfa:EN16931:2017:compliant" ] ]

/-- `_add_header`, `rsm:ExchangedDocument` part (lines 98–113); a missing
`invoice_number` becomes the empty string and a missing `invoice_date`
becomes the current date `now`. -/
def xsExchangedDoc (now : String) (d : XSData) : XElem :=
  el (rsm "ExchangedDocument")
    [ leaf (ram "ID") (d.invoice_number.getD "")
    , leaf (ram "TypeCode") "380"
    , el (ram "IssueDateTime")
        [ leafA (udt "DateTimeString") [("format", "102")]
            (removeDashes (d.invoice_date.getD now)) ] ]

/-- One line item of `_add_line_items` (lines 174–215).  The line-level
`ram:RateApplicablePercent` text is `str(20)`, the literal constant of
line 208, independent of the item. -/
def xsLineItem (idx : Nat) (it : XSItem) : XElem :=
  el (ram "IncludedSupplyChainTradeLineItem")
    [ el (ram "AssociatedDocumentLineDocument")
        [ leaf (ram "LineID") (toString idx) ]
    , el (ram "SpecifiedTradeProduct")
        [ leaf (ram "Name") (it.description.getD "") ]
    , el (ram "SpecifiedLineTradeAgreement")
        [ el (ram "NetPriceProductTradePrice")
            [ leaf (ram "ChargeAmount") (pyNumStr (it.unit_price.getD 0)) ] ]
    , el (ram "SpecifiedLineTradeDelivery")
        [ leafA (ram "BilledQuantity") [("unitCode", "C62")]
            (pyNumStr (it.quantity.getD 0)) ]
    , el (ram "SpecifiedLineTradeSettlement")
        [ el (ram "ApplicableTradeTax")
            [ leaf (ram "TypeCode") "VAT"
            , leaf (ram "CategoryCode") "S"
            , leaf (ram "RateApplicablePercent") "20" ]
        , el (ram "SpecifiedTradeSettlementLineMonetarySummation")
            [ leaf (ram "LineTotalAmount")
                (pyFloatStr (it.quantity.getD 0 * it.unit_price.getD 0)) ] ] ]

/-- `_add_invoice_details` (lines 120–142). -/
def xsInvoiceDetails (d : XSData) : XElem :=
  el (ram "ApplicableHeaderTradeAgreement")
    [ el (ram "SellerTradeParty")
        ([ leaf (ram "Name") (d.seller.name.getD "") ] ++
          (match d.seller.vat_number with
            | some v =>
                [el (ram "SpecifiedTaxRegistration") [leaf (ram "ID") v]]
            | none => []))
    , el (ram "BuyerTradeParty")
        ([ leaf (ram "Name") (d.buyer.name.getD "") ] ++
          (match d.buyer.vat_number with
            | some v =>
                [el (ram "SpecifiedTaxRegistration") [leaf (ram "ID") v]]
            | none => [])) ]

/-- `_add_header_delivery` (lines 115–118): an empty delivery section. -/
def xsHeaderDelivery : XElem :=
  el (ram "ApplicableHeaderTradeDelivery") []

/-- The header-level `ram:ApplicableTradeTax` of `_add_totals`
(lines 251–258): rate `str(data.get('tax', 20))`. -/
def xsTaxElem (d : XSData) : XElem :=
  el (ram "ApplicableTradeTax")
    [ leaf (ram "TypeCode") "VAT"
    , leaf (ram "CategoryCode") "S"
    , leaf (ram "RateApplicablePercent") (pyNumStr (d.tax.getD 20)) ]

/-- `_add_totals` (lines 217–305); a missing `currency` becomes `'EUR'`
(line 238), a missing `tax` key makes the header rate `str(20)`
(line 258). -/
def xsTotals (d : XSData) : XElem :=
  el (ram "ApplicableHeaderTradeSettlement")
    (optNode d.creditor_reference (fun v => leaf (ram "CreditorReferenceID") v) ++
     optNode d.payment_reference (fun v => leaf (ram "PaymentReference") v) ++
     optNode d.tax_currency (fun v => leaf (ram "TaxCurrencyCode") v) ++
     [ leaf (ram "InvoiceCurrencyCode") (d.currency.getD "EUR") ] ++
     optNode d.payee (fun p =>
        el (ram "PayeeTradeParty") [leaf (ram "Name") (p.name.getD "")]) ++
     [ el (ram "SpecifiedTradeSettlementPaymentMeans")
         [ leaf (ram "TypeCode") "42" ] ] ++
     [ xsTaxElem d ] ++
     optNode d.billing_period (fun bp =>
        el (ram "BillingSpecifiedPeriod")
          [ el (ram "StartDateTime")
              [ leafA (udt "DateTimeString") [("format", "102")]
                  (removeDashes bp.1) ]
          , el (ram "EndDateTime")
              [ leafA (udt "DateTimeString") [("format", "102")]
                  (removeDashes bp.2) ] ]) ++
     (d.allowances.getD []).map (fun a =>
        el (ram "SpecifiedTradeAllowanceCharge")
          [ leaf (ram "ChargeIndicator") "false"
          , leaf (ram "ActualAmount") (pyNumStr a) ]) ++
     optNode d.due_date (fun dd =>
        el (ram "SpecifiedTradePaymentTerms")
          [ el (ram "DueDateDateTime")
              [ leafA (udt "DateTimeString") [("format", "102")]
                  (removeDashes dd) ] ]) ++
     [ el (ram "SpecifiedTradeSettlementHeaderMonetarySummation")
         [ leaf (ram "GrandTotalAmount") (pyNumStr (d.total_amount.getD 0)) ] ] ++
     (d.referenced_documents.getD []).map (fun i =>
        el (ram "InvoiceReferencedDocument")
          [ leaf (ram "IssuerAssignedID") i ]) ++
     optNode d.accounting_account (fun v =>
        el (ram "ReceivableSpecifiedTradeAccountingAccount")
          [ leaf (ram "ID") v ]))

/-- The `rsm:SupplyChainTradeTransaction` of `XMLService` (lines 56–71):
line items first, then agreement, then delivery, then settlement. -/
def xsTransaction (d : XSData) : XElem :=
  el (rsm "SupplyChainTradeTransaction")
    ((xsEffectiveItems d).enum.map (fun p => xsLineItem (p.1 + 1) p.2) ++
      [xsInvoiceDetails d, xsHeaderDelivery, xsTotals d])

/-- The document tree `XMLService.generate_facturx_xml` writes. -/
def xmlServiceGenerate (now : String) (d : XSData) : XElem :=
  XElem.node (rsm "CrossIndustryInvoice") [] none
    [xsHeaderContext, xsExchangedDoc now d, xsTransaction d]

/-! ## `server/invoice/facturx_process.py`: `generateXMPMetadata`

The builder hashes the XML content with `hashlib.md5` (an external
primitive, passed in here as the function `md5hex`) and reads the
current time with `datetime.datetime.now()` **inside** the function
(line 316); the clock reading is made explicit as the `now` argument so
the dependence on it is visible. -/

def generateXMPMetadata (md5hex : String → String)
    (xml_content invoice_number now : String) : String :=
  let xml_hash := md5hex xml_content
  "<?xpacket begin=\"ï»¿\" id=\"W5M0MpCehiHzreSzNTczkc9d\"?>\n" ++
  "<x:xmpmeta xmlns:x=\"adobe:ns:meta/\" x:xmptk=\"Adobe XMP Core 5.6-c140 79.160451, 2017/05/06-01:08:21\">\n" ++
  "<rdf:RDF xmlns:rdf=\"http://www.w3.org/1999/02/22-rdf-syntax-ns#\">\n" ++
  "<rdf:Description rdf:about=\"\" xmlns:pdfaid=\"http://www.aiim.org/pdfa/ns/id/\">\n" ++
  "<pdfaid:part>3</pdfaid:part>\n" ++
  "<pdfaid:conformance>B</pdfaid:conformance>\n" ++
  "</rdf:Description>\n" ++
  "<rdf:Description rdf:about=\"\" xmlns:pdf=\"http://ns.adobe.com/pdf/1.3/\">\n" ++
  "<pdf:Producer>Factur-X Generator</pdf:Producer>\n" ++
  "<pdf:Keywords>Factur-X, Invoice, " ++ invoice_number ++ "</pdf:Keywords>\n" ++
  "<pdf:ModDate>" ++ now ++ "</pdf:ModDate>\n" ++
  "</rdf:Description>\n" ++
  "<rdf:Description rdf:about=\"\" xmlns:fx=\"http://www.factur-x.eu/2017/1.0.7\">\n" ++
  "<fx:ConformanceLevel>EN16931</fx:ConformanceLevel>\n" ++
  "<fx:DocumentType>INVOICE</fx:DocumentType>\n" ++
  "<fx:DocumentFileName>factur-x.xml</fx:DocumentFileName>\n" ++
  "<fx:Version>1.0.7</fx:Version>\n" ++
  "<fx:DocumentHash>" ++ xml_hash ++ "</fx:DocumentHash>\n" ++
  "</rdf:Description>\n" ++
  "</rdf:RDF>\n" ++
  "</x:xmpmeta>\n" ++
  "<?xpacket end=\"w\"?>"

/-! ## pikepdf object-graph model

A PDF is a store of indirect objects (the object id is the index into
the store) plus the root catalog dictionary.  `Pdf.make_indirect` on a
direct object always allocates a **new** indirect object
(`QPDF::makeIndirectObject`), and `Pdf.make_stream` likewise attaches a
new stream object; both return the fresh id. -/

inductive PdfVal : Type where
  | name (s : String)
  | str (s : String)
  | int (n : Int)
  | ref (id : Nat)
  | arr (xs : List PdfVal)
  | dict (d : List (String × PdfVal))
  | stream (data : String) (d : List (String × PdfVal))

namespace PdfVal

def asArr : PdfVal → List PdfVal
  | arr xs => xs
  | _ => []

def asDict : PdfVal → List (String × PdfVal)
  | dict d => d
  | _ => []

end PdfVal

/-- Lookup in a PDF dictionary. -/
def dGet (d : List (String × PdfVal)) (k : String) : Option PdfVal :=
  (d.find? (fun p => p.1 == k)).map Prod.snd

/-- Update/insert in a PDF dictionary: an existing key is replaced in
place, a new key is appended. -/
def dSet (d : List (String × PdfVal)) (k : String) (v : PdfVal) :
    List (String × PdfVal) :=
  match d with
  | [] => [(k, v)]
  | (k', v') :: t => if k' == k then (k, v) :: t else (k', v') :: dSet t k v

structure PdfState where
  store : List PdfVal
  root : List (String × PdfVal)

/-- `pdf.make_indirect(v)`: attach `v` as a fresh indirect object. -/
def mkIndirect (s : PdfState) (v : PdfVal) : PdfState × Nat :=
  (⟨s.store ++ [v], s.root⟩, s.store.length)

/-- `pdf.make_stream(data)`: attach a fresh stream object. -/
def mkStream (s : PdfState) (data : String) (d : List (String × PdfVal)) :
    PdfState × Nat :=
  (⟨s.store ++ [.stream data d], s.root⟩, s.store.length)

def rootGet (s : PdfState) (k : String) : Option PdfVal :=
  dGet s.root k

def rootSet (s : PdfState) (k : String) (v : PdfVal) : PdfState :=
  ⟨s.store, dSet s.root k v⟩

/-- The file-specification dictionary built at lines 164–174 of
`server/utils/pdf/facturx_process.py`, wrapping the embedded stream. -/
def facturxFilespec (sid : Nat) : PdfVal :=
  .dict [ ("/Type", .name "/Filespec")
        , ("/F", .str "factur-x.xml")
        , ("/UF", .str "factur-x.xml")
        , ("/AFRelationship", .name "/Data")
        , ("/Desc", .str "Factur-X Invoice Data")
        , ("/EF", .dict [("/F", .ref sid)]) ]

/-- The constant XMP payload of lines 200–215 of
`server/utils/pdf/facturx_process.py`. -/
def utilsXmp : String :=
  "<?xpacket begin=\"ï»¿\" id=\"W5M0MpCehiHzreSzNTczkc9d\"?>\n" ++
  "<x:xmpmeta xmlns:x=\"adobe:ns:meta/\">\n" ++
  "  <rdf:RDF xmlns:rdf=\"http://www.w3.org/1999/02/22-rdf-syntax-ns#\">\n" ++
  "    <rdf:Description rdf:about=\"\"\n" ++
  "      xmlns:pdfaid=\"http://www.aiim.org/pdfa/ns/id/\"\n" ++
  "      pdfaid:part=\"3\"\n" ++
  "      pdfaid:conformance=\"B\"/>\n" ++
  "    <rdf:Description rdf:about=\"\"\n" ++
  "      xmlns:zf=\"urn:ferd:pdfa:CrossIndustryDocument:invoice:2p0#\"\n" ++
  "      zf:DocumentType=\"INVOICE\"\n" ++
  "      zf:DocumentFileName=\"factur-x.xml\"\n" ++
  "      zf:Version=\"2p0\"\n" ++
  "      zf:ConformanceLevel=\"EN16931\"/>\n" ++
  "  </rdf:RDF>\n" ++
  "</x:xmpmeta>\n" ++
  "<?xpacket end=\"w\"?>"

/-- The in-memory graph edit of `embed_xml_in_pdf`
(`server/utils/pdf/facturx_process.py`, lines 151–218).  The filespec
dictionary is passed to `pdf.make_indirect` **twice** — once for the
`/AF` append (line 181) and once for the name-tree append (line 197) —
each call allocating its own indirect object.  The XMP stream is always
created (line 200) but only installed when the root has no `/Metadata`
yet (lines 217–218).  A separate `xml_stream_dict` built at lines
159–161 is never attached to anything and has no observable effect. -/
def serverUtilsEmbed (s : PdfState) (xml : String) : PdfState :=
  let p1 := mkStream s xml []
  let s1 := p1.1
  let sid := p1.2
  let filespec := facturxFilespec sid
  let s2 := if (rootGet s1 "/AF").isNone then rootSet s1 "/AF" (.arr []) else s1
  let p2 := mkIndirect s2 filespec
  let s3 := p2.1
  let fid1 := p2.2
  let s4 := rootSet s3 "/AF"
    (.arr (((rootGet s3 "/AF").getD (.arr [])).asArr ++ [.ref fid1]))
  let s5 := if (rootGet s4 "/Names").isNone then rootSet s4 "/Names" (.dict []) else s4
  let names0 := ((rootGet s5 "/Names").getD (.dict [])).asDict
  let names1 := if (dGet names0 "/EmbeddedFiles").isNone
    then dSet names0 "/EmbeddedFiles" (.dict []) else names0
  let ef0 := ((dGet names1 "/EmbeddedFiles").getD (.dict [])).asDict
  let ef1 := if (dGet ef0 "/Names").isNone then dSet ef0 "/Names" (.arr []) else ef0
  let p3 := mkIndirect s5 filespec
  let s6 := p3.1
  let fid2 := p3.2
  let ef2 := dSet ef1 "/Names"
    (.arr (((dGet ef1 "/Names").getD (.arr [])).asArr ++
      [.str "factur-x.xml", .ref fid2]))
  let names2 := dSet names1 "/EmbeddedFiles" (.dict ef2)
  let s7 := rootSet s6 "/Names" (.dict names2)
  let p4 := mkStream s7 utilsXmp []
  let s8 := p4.1
  let mid := p4.2
  if (rootGet s8 "/Metadata").isNone then rootSet s8 "/Metadata" (.ref mid) else s8

/-- Reference ids held in an array value, in order. -/
def refIds (v : PdfVal) : List Nat :=
  v.asArr.filterMap (fun x =>
    match x with
    | .ref i => some i
    | _ => none)

/-- Object ids registered in the catalog's flat `/AF` attachments index. -/
def afIds (s : PdfState) : List Nat :=
  refIds ((rootGet s "/AF").getD (.arr []))

/-- The flat `/Names` array of the `/Names /EmbeddedFiles` tree. -/
def efNamesArr (s : PdfState) : List PdfVal :=
  ((dGet ((dGet (((rootGet s "/Names").getD (.dict [])).asDict)
    "/EmbeddedFiles").getD (.dict []) |>.asDict) "/Names").getD (.arr [])).asArr

/-- Object ids registered in the name-keyed attachment tree. -/
def nameTreeIds (s : PdfState) : List Nat :=
  refIds (.arr (efNamesArr s))

/-- Name strings registered in the name-keyed attachment tree. -/
def nameTreeNames (s : PdfState) : List String :=
  (efNamesArr s).filterMap (fun x =>
    match x with
    | .str t => some t
    | _ => none)

/-- The root `/Metadata` reference, when it is a reference. -/
def metadataRef (s : PdfState) : Option Nat :=
  match rootGet s "/Metadata" with
  | some (.ref i) => some i
  | _ => none

/-- The stored value of object `i`. -/
def storeAt (s : PdfState) (i : Nat) : Option PdfVal :=
  s.store[i]?

/-! ## Filesystem behaviour of the persist step

`embed_xml_in_pdf` in `server/invoice/facturx_process.py` (lines 71–182)
opens the container at `pdf_path` (line 77, with
`allow_overwriting_input=True`) and, after editing the object graph in
memory, performs its single filesystem write with `pdf.save(pdf_path)`
at line 181 — aimed at the very path that was opened.  Neither the
function nor `pikepdf.Pdf.save` writes to a temporary location and
renames, so the write is modelled in place: a failure before the save
(e.g. the missing-ICC-profile check at lines 81–83) returns `False`
having written nothing, while an interruption of the save after `k`
characters leaves that prefix of the new bytes at the target. -/

/-- A filesystem as a path-to-content map. -/
def FS : Type := List (String × String)

def fsGet (fs : FS) (p : String) : Option String :=
  ((fs : List (String × String)).find? (fun e => e.1 == p)).map Prod.snd

def fsSet (fs : FS) (p v : String) : FS :=
  match fs with
  | [] => [(p, v)]
  | (p', v') :: t =>
      if p' == p then (p, v) :: t else (p', v') :: fsSet t p v

/-- Failure modes of the attach-and-persist run. -/
inductive EmbedFault : Type where
  | noFault
  | beforeSave
  | duringSave (k : Nat)

/-- Filesystem effect of `embed_xml_in_pdf`
(`server/invoice/facturx_process.py`): the edited container bytes
`newBytes` are written in place at `pdfPath` by `pdf.save(pdf_path)`;
`beforeSave` failures return `False` without writing, an interrupted
save leaves a prefix of `newBytes` at the target. -/
def serverInvoiceEmbedFS (fs : FS) (pdfPath : String) (newBytes : String)
    (fault : EmbedFault) : FS × Bool :=
  match fault with
  | .beforeSave => (fs, false)
  | .duringSave k => (fsSet fs pdfPath (newBytes.take k), false)
  | .noFault => (fsSet fs pdfPath newBytes, true)

/-! ## Observations on generated documents -/

/-- The transaction section of a generated document. -/
def transactionOf (doc : XElem) : Option XElem :=
  doc.findChild (rsm "SupplyChainTradeTransaction")

/-- Tag sequence of the transaction's direct children. -/
def transactionTags (doc : XElem) : Option (List String) :=
  (transactionOf doc).map XElem.childrenTags

/-- The header settlement section of a generated document. -/
def settlementOf (doc : XElem) : Option XElem :=
  (transactionOf doc).bind
    (fun tr => tr.findChild (ram "ApplicableHeaderTradeSettlement"))

/-- The `ram:RateApplicablePercent` texts of the header settlement's
`ram:ApplicableTradeTax` entries, in emission order. -/
def headerTaxRateTexts (doc : XElem) : List (Option String) :=
  ((settlementOf doc).map
    (fun st =>
      (st.filterChildren (ram "ApplicableTradeTax")).map
        (fun tx =>
          (tx.findChild (ram "RateApplicablePercent")).bind XElem.text))).getD []

/-- The `ram:BasisAmount` texts of the header settlement's
`ram:ApplicableTradeTax` entries, in emission order. -/
def headerTaxBasisTexts (doc : XElem) : List (Option String) :=
  ((settlementOf doc).map
    (fun st =>
      (st.filterChildren (ram "ApplicableTradeTax")).map
        (fun tx =>
          (tx.findChild (ram "BasisAmount")).bind XElem.text))).getD []

/-- The `ram:LineTotalAmount` texts of the line items, in document
order (`liTag` is the namespace-qualified line-item tag to look for). -/
def lineTotalTexts (liTag : String) (doc : XElem) : List (Option String) :=
  ((transactionOf doc).map
    (fun tr =>
      (tr.filterChildren liTag).map
        (fun li =>
          ((li.findChild (ram "SpecifiedLineTradeSettlement")).bind
            (fun st =>
              (st.findChild
                  (ram "SpecifiedTradeSettlementLineMonetarySummation")).bind
                (fun su =>
                  (su.findChild (ram "LineTotalAmount")).bind XElem.text)))))).getD []

/-- The line-level `ram:RateApplicablePercent` texts, in document order. -/
def lineRateTexts (liTag : String) (doc : XElem) : List (Option String) :=
  ((transactionOf doc).map
    (fun tr =>
      (tr.filterChildren liTag).map
        (fun li =>
          ((li.findChild (ram "SpecifiedLineTradeSettlement")).bind
            (fun st =>
              (st.findChild (ram "ApplicableTradeTax")).bind
                (fun tx =>
                  (tx.findChild (ram "RateApplicablePercent")).bind
                    XElem.text)))))).getD []

/-- Text of the document-level `ram:ID` under `rsm:ExchangedDocument`. -/
def docIdText (doc : XElem) : Option String :=
  (doc.findChild (rsm "ExchangedDocument")).bind
    (fun e => (e.findChild (ram "ID")).bind XElem.text)

/-- Text of the issue date under `rsm:ExchangedDocument`. -/
def issueDateText (doc : XElem) : Option String :=
  (doc.findChild (rsm "ExchangedDocument")).bind
    (fun e =>
      (e.findChild (ram "IssueDateTime")).bind
        (fun i => (i.findChild (udt "DateTimeString")).bind XElem.text))

/-- Text of `ram:InvoiceCurrencyCode` in the header settlement. -/
def currencyText (doc : XElem) : Option String :=
  (settlementOf doc).bind
    (fun st => (st.findChild (ram "InvoiceCurrencyCode")).bind XElem.text)

/-! ## Concrete inputs -/

/-- Invoice with two line items at the distinct rates 20 % and 10 %,
net amounts 100.00 and 50.00, the 20 % item set first. -/
def exInvTwoRates : RInvoice :=
  { invoice_number := some "INV-1"
  , issue_date := some "2024-02-14"
  , due_date := some "2024-03-14"
  , currency := some "EUR"
  , items :=
      [ { description := some "A", quantity := some 1
        , unit_price := some 100, vat_rate := some 20 }
      , { description := some "B", quantity := some 1
        , unit_price := some 50, vat_rate := some 10 } ] }

/-- Invoice with an empty line-item sequence. -/
def exInvEmpty : RInvoice := {}

/-- Rounding-boundary invoice: two items of the same 20 % group, each
with raw net amount `33/64 = 0.515625`, which rounds per line to `0.52`
while the group's raw sum `33/32 = 1.03125` rounds once to `1.03`. -/
def exInvRound : RInvoice :=
  { items :=
      [ { quantity := some 1, unit_price := some (33/64), vat_rate := some 20 }
      , { quantity := some 1, unit_price := some (33/64), vat_rate := some 20 } ] }

/-- The all-missing invoice dictionary for `XMLService`. -/
def exXSEmpty : XSData := {}

/-- An empty container: empty object store, empty root catalog. -/
def pdfEmpty : PdfState := ⟨[], []⟩

/-! ## List helpers -/

theorem filter_cons_skip {α : Type} (p : α → Bool) (x : α) (l : List α)
    (h : p x = false) : List.filter p (x :: l) = List.filter p l := by
  simp [List.filter_cons, h]

theorem filter_cons_keep {α : Type} (p : α → Bool) (x : α) (l : List α)
    (h : p x = true) : List.filter p (x :: l) = x :: List.filter p l := by
  simp [List.filter_cons, h]

theorem find?_cons_skip {α : Type} (p : α → Bool) (x : α) (l : List α)
    (h : p x = false) : List.find? p (x :: l) = List.find? p l := by
  simp [List.find?_cons, h]

theorem find?_cons_keep {α : Type} (p : α → Bool) (x : α) (l : List α)
    (h : p x = true) : List.find? p (x :: l) = some x := by
  simp [List.find?_cons, h]

theorem filter_optNode_skip {α : Type} (p : XElem → Bool) (o : Option α)
    (f : α → XElem) (l2 : List XElem) (h : ∀ a, p (f a) = false) :
    List.filter p (optNode o f ++ l2) = List.filter p l2 := by
  cases o <;> simp [optNode, List.filter_cons, h]

theorem find?_optNode_skip {α : Type} (p : XElem → Bool) (o : Option α)
    (f : α → XElem) (l2 : List XElem) (h : ∀ a, p (f a) = false) :
    List.find? p (optNode o f ++ l2) = List.find? p l2 := by
  cases o <;> simp [optNode, List.find?_cons, h]

theorem filter_map_skip {β : Type} (p : XElem → Bool) (g : β → XElem)
    (h : ∀ a, p (g a) = false) :
    ∀ (l : List β) (l2 : List XElem),
      List.filter p (l.map g ++ l2) = List.filter p l2 := by
  intro l l2
  induction l with
  | nil => rfl
  | cons x t ih => simpa [List.filter_cons, h] using ih

theorem find?_map_skip {β : Type} (p : XElem → Bool) (g : β → XElem)
    (h : ∀ a, p (g a) = false) :
    ∀ (l : List β) (l2 : List XElem),
      List.find? p (l.map g ++ l2) = List.find? p l2 := by
  intro l l2
  induction l with
  | nil => rfl
  | cons x t ih => simpa [List.find?_cons, h] using ih

theorem filter_optNode_nil {α : Type} (p : XElem → Bool) (o : Option α)
    (f : α → XElem) (h : ∀ a, p (f a) = false) :
    List.filter p (optNode o f) = [] := by
  cases o <;> simp [optNode, List.filter_cons, h]

theorem filter_map_all {β : Type} (p : XElem → Bool) (g : β → XElem)
    (h : ∀ a, p (g a) = true) :
    ∀ (l : List β) (l2 : List XElem),
      List.filter p (l.map g ++ l2) = l.map g ++ List.filter p l2 := by
  intro l l2
  induction l with
  | nil => rfl
  | cons x t ih => simpa [List.filter_cons, h] using ih

theorem map_const_replicate {α β : Type} (f : α → β) (b : β)
    (h : ∀ a, f a = b) :
    ∀ l : List α, l.map f = List.replicate l.length b := by
  intro l
  induction l with
  | nil => rfl
  | cons x t ih => simp [h, ih, List.replicate]

/-! ## Structural lemmas about the `XMLService` tree -/

/-- The settlement section is the unique settlement-tagged child of the
transaction. -/
theorem xsTransaction_findSettlement (d : XSData) :
    (xsTransaction d).findChild (ram "ApplicableHeaderTradeSettlement") =
      some (xsTotals d) := by
  unfold xsTransaction XElem.findChild el
  simp only [XElem.children]
  rw [find?_map_skip _ _ (fun a => rfl)]
  rfl

/-- The line-item children of the transaction are exactly the mapped
line items, in input order. -/
theorem xsTransaction_filterLineItems (d : XSData) :
    (xsTransaction d).filterChildren (ram "IncludedSupplyChainTradeLineItem") =
      (xsEffectiveItems d).enum.map (fun p => xsLineItem (p.1 + 1) p.2) := by
  unfold xsTransaction XElem.filterChildren el
  simp only [XElem.children]
  rw [filter_map_all _ _ (fun a => rfl),
    filter_cons_skip _ _ _ rfl, filter_cons_skip _ _ _ rfl,
    filter_cons_skip _ _ _ rfl]
  simp

/-- The settlement's only `ram:ApplicableTradeTax` child is the
header tax element. -/
theorem xsTotals_filterTax (d : XSData) :
    (xsTotals d).filterChildren (ram "ApplicableTradeTax") = [xsTaxElem d] := by
  unfold xsTotals XElem.filterChildren el
  simp only [XElem.children, List.append_assoc, List.singleton_append,
    List.cons_append, List.nil_append]
  rw [filter_optNode_skip _ _ _ _ (fun a => rfl),
    filter_optNode_skip _ _ _ _ (fun a => rfl),
    filter_optNode_skip _ _ _ _ (fun a => rfl),
    filter_cons_skip _ _ _ rfl,
    filter_optNode_skip _ _ _ _ (fun a => rfl),
    filter_cons_skip _ _ _ rfl,
    filter_cons_keep _ _ _ rfl,
    filter_optNode_skip _ _ _ _ (fun a => rfl),
    filter_map_skip _ _ (fun a => rfl),
    filter_optNode_skip _ _ _ _ (fun a => rfl),
    filter_cons_skip _ _ _ rfl,
    filter_map_skip _ _ (fun a => rfl),
    filter_optNode_nil _ _ _ (fun a => rfl)]

/-- The settlement's `ram:InvoiceCurrencyCode` child carries the
currency with default `'EUR'`. -/
theorem xsTotals_findCurrency (d : XSData) :
    (xsTotals d).findChild (ram "InvoiceCurrencyCode") =
      some (leaf (ram "InvoiceCurrencyCode") (d.currency.getD "EUR")) := by
  unfold xsTotals XElem.findChild el
  simp only [XElem.children, List.append_assoc, List.singleton_append,
    List.cons_append, List.nil_append]
  rw [find?_optNode_skip _ _ _ _ (fun a => rfl),
    find?_optNode_skip _ _ _ _ (fun a => rfl),
    find?_optNode_skip _ _ _ _ (fun a => rfl)]
  rfl

/-- Computation rule for `format2` once the cent value is known. -/
theorem format2_of_cents (q : ℚ) (c : ℤ) (h : round2cents q = c) :
    format2 q = (if c < 0 then "-" else "") ++ toString (c.natAbs / 100) ++ "." ++
      padLeftZeros (toString (c.natAbs % 100)) 2 := by
  unfold format2
  rw [h]

/-- `str(20)` on the integer `20`. -/
theorem pyNumStr_twenty : pyNumStr (20:ℚ) = "20" := by
  unfold pyNumStr
  rw [Rat.num_ofNat, Rat.den_ofNat]
  rfl

/-! ## The grouping fold of the root script -/

/-- The rate key the grouping loop uses for an item. -/
def rateOf (it : RItem) : ℚ := it.vat_rate.getD 0

/-- The raw (unrounded) amount the grouping loop accumulates. -/
def amountOf (it : RItem) : ℚ := it.quantity.getD 0 * it.unit_price.getD 0

theorem taxStep_eq (acc : List (ℚ × ℚ)) (it : RItem) :
    taxStep acc it = assocAdd acc (rateOf it) (amountOf it) := rfl

/-- Rates of the items, first occurrence first, with duplicates dropped:
the key order of a Python dict filled by the grouping loop. -/
def firstOccur (l : List ℚ) : List ℚ :=
  l.foldl (fun acc r => if r ∈ acc then acc else acc ++ [r]) []

theorem assocAdd_keys (k v : ℚ) :
    ∀ l : List (ℚ × ℚ),
      (assocAdd l k v).map Prod.fst =
        if k ∈ l.map Prod.fst then l.map Prod.fst
        else l.map Prod.fst ++ [k] := by
  intro l
  induction l with
  | nil => simp [assocAdd]
  | cons hd t ih =>
      obtain ⟨a, b⟩ := hd
      by_cases hk : a = k
      · subst hk
        simp [assocAdd]
      · simp only [assocAdd, if_neg hk, List.map_cons]
        rw [ih]
        by_cases hm : k ∈ t.map Prod.fst <;>
          simp [hm, List.mem_cons, Ne.symm hk]

theorem assocAdd_sndSum (k v : ℚ) :
    ∀ l : List (ℚ × ℚ),
      ((assocAdd l k v).map Prod.snd).sum = (l.map Prod.snd).sum + v := by
  intro l
  induction l with
  | nil => simp [assocAdd]
  | cons hd t ih =>
      obtain ⟨a, b⟩ := hd
      by_cases hk : a = k
      · subst hk
        have e : assocAdd ((a, b) :: t) a v = (a, b + v) :: t := by
          simp [assocAdd]
        rw [e]
        simp only [List.map_cons, List.sum_cons]
        ring
      · simp only [assocAdd, if_neg hk, List.map_cons, List.sum_cons, ih]
        ring

theorem foldl_taxStep_keys :
    ∀ (items : List RItem) (acc : List (ℚ × ℚ)),
      (items.foldl taxStep acc).map Prod.fst =
        items.foldl
          (fun ks it => if rateOf it ∈ ks then ks else ks ++ [rateOf it])
          (acc.map Prod.fst) := by
  intro items
  induction items with
  | nil => intro acc; rfl
  | cons i t ih =>
      intro acc
      simp only [List.foldl_cons]
      rw [ih, taxStep_eq, assocAdd_keys]

theorem foldl_taxStep_sum :
    ∀ (items : List RItem) (acc : List (ℚ × ℚ)),
      ((items.foldl taxStep acc).map Prod.snd).sum =
        (acc.map Prod.snd).sum + (items.map amountOf).sum := by
  intro items
  induction items with
  | nil => intro acc; simp
  | cons i t ih =>
      intro acc
      simp only [List.foldl_cons, List.map_cons, List.sum_cons]
      rw [ih, taxStep_eq, assocAdd_sndSum]
      ring

theorem foldl_taxStep_nodup :
    ∀ (items : List RItem) (acc : List (ℚ × ℚ)),
      (acc.map Prod.fst).Nodup →
        ((items.foldl taxStep acc).map Prod.fst).Nodup := by
  intro items
  induction items with
  | nil => intro acc h; exact h
  | cons i t ih =>
      intro acc h
      simp only [List.foldl_cons]
      apply ih
      rw [taxStep_eq, assocAdd_keys]
      by_cases hm : rateOf i ∈ acc.map Prod.fst
      · simpa [hm] using h
      · simp [hm, List.nodup_append, h]

/-! ## Observable facts about the `XMLService` document -/

theorem transactionOf_xmlService (now : String) (d : XSData) :
    transactionOf (xmlServiceGenerate now d) = some (xsTransaction d) := rfl

theorem transactionOf_root (inv : RInvoice) :
    transactionOf (rootGenerate inv) = some (rootTransaction inv) := rfl

theorem settlementOf_root (inv : RInvoice) :
    settlementOf (rootGenerate inv) = some (rootSettlement inv) := rfl

theorem docIdText_xmlService (now : String) (d : XSData) :
    docIdText (xmlServiceGenerate now d) =
      some (d.invoice_number.getD "") := rfl

theorem issueDateText_xmlService (now : String) (d : XSData) :
    issueDateText (xmlServiceGenerate now d) =
      some (removeDashes (d.invoice_date.getD now)) := rfl

theorem xsTaxElem_rate (d : XSData) :
    ((xsTaxElem d).findChild (ram "RateApplicablePercent")).bind XElem.text =
      some (pyNumStr (d.tax.getD 20)) := rfl

/-- The settlement of the `XMLService` document is the `_add_totals`
element. -/
theorem settlementOf_xmlService (now : String) (d : XSData) :
    settlementOf (xmlServiceGenerate now d) = some (xsTotals d) := by
  show (xsTransaction d).findChild (ram "ApplicableHeaderTradeSettlement") =
    some (xsTotals d)
  exact xsTransaction_findSettlement d

/-- Every line-level rate text the `XMLService` encoder emits is the
constant `"20"`, one per line item. -/
theorem lineRateTexts_xmlService (now : String) (d : XSData) :
    lineRateTexts (ram "IncludedSupplyChainTradeLineItem")
        (xmlServiceGenerate now d) =
      List.replicate (xsEffectiveItems d).length (some "20") := by
  unfold lineRateTexts
  rw [transactionOf_xmlService]
  simp only [Option.map_some', Option.getD_some]
  rw [xsTransaction_filterLineItems, List.map_map]
  exact (map_const_replicate _ _ (fun p => rfl) _).trans
    (by rw [List.enum_length])

/-- When the input has no `tax` key, the header-level rate text of the
`XMLService` encoder is `"20"`. -/
theorem headerRateText_xmlService (now : String) (d : XSData)
    (h : d.tax = none) :
    headerTaxRateTexts (xmlServiceGenerate now d) = [some "20"] := by
  unfold headerTaxRateTexts
  rw [settlementOf_xmlService]
  simp only [Option.map_some', Option.getD_some]
  rw [xsTotals_filterTax]
  simp only [List.map_cons, List.map_nil]
  rw [xsTaxElem_rate, h]
  show [some (pyNumStr (20:ℚ))] = [some "20"]
  rw [pyNumStr_twenty]

/-- Section order of the `XMLService` encoder, for every input and clock:
all line items first, then the agreement, delivery and settlement
sections — the order the spec requires. -/
theorem xmlService_transaction_tags (now : String) (d : XSData) :
    transactionTags (xmlServiceGenerate now d) =
      some (List.replicate (xsEffectiveItems d).length
          (ram "IncludedSupplyChainTradeLineItem") ++
        [ram "ApplicableHeaderTradeAgreement",
         ram "ApplicableHeaderTradeDelivery",
         ram "ApplicableHeaderTradeSettlement"]) := by
  unfold transactionTags
  rw [transactionOf_xmlService]
  simp only [Option.map_some', Option.some.injEq]
  unfold XElem.childrenTags xsTransaction el
  simp only [XElem.children]
  rw [List.map_append, List.map_map]
  have h1 : List.map (XElem.tag ∘ fun p => xsLineItem (p.1 + 1) p.2)
      (xsEffectiveItems d).enum =
      List.replicate (xsEffectiveItems d).length
        (ram "IncludedSupplyChainTradeLineItem") :=
    (map_const_replicate _ _ (fun p => rfl) _).trans
      (by rw [List.enum_length]; rfl)
  rw [h1]
  rfl

/-- Closed form of a first attach to the empty container: object 0 is
the payload stream, objects 1 and 2 are the two filespec copies, object
3 is the metadata stream; the root indexes object 1 from `/AF` and
object 2 from the name tree. -/
theorem serverUtilsEmbed_empty (xml : String) :
    serverUtilsEmbed pdfEmpty xml =
      ⟨[.stream xml [], facturxFilespec 0, facturxFilespec 0,
          .stream utilsXmp []],
        [("/AF", .arr [.ref 1]),
         ("/Names", .dict [("/EmbeddedFiles",
            .dict [("/Names", .arr [.str "factur-x.xml", .ref 2])])]),
         ("/Metadata", .ref 3)]⟩ := rfl

/-! ## The claims -/

/-- C1: the claim states that every encoder emits, under the transaction
element, first all line items, then agreement, delivery and settlement.
The `XMLService` encoder does (see `xmlService_transaction_tags`), but
the root-script encoder `generate_facturx_xml.py` appends the line items
**after** the settlement section: on a concrete two-item invoice its
transaction children are agreement, delivery, settlement and only then
the two line items, which is not the claimed order. -/
theorem thmC1_rootScript_section_order :
    transactionTags (rootGenerate exInvTwoRates) =
      some [ram "ApplicableHeaderTradeAgreement",
        ram "ApplicableHeaderTradeDelivery",
        ram "ApplicableHeaderTradeSettlement",
        rsm "IncludedSupplyChainTradeLineItem",
        rsm "IncludedSupplyChainTradeLineItem"] ∧
    transactionTags (rootGenerate exInvTwoRates) ≠
      some [rsm "IncludedSupplyChainTradeLineItem",
        rsm "IncludedSupplyChainTradeLineItem",
        ram "ApplicableHeaderTradeAgreement",
        ram "ApplicableHeaderTradeDelivery",
        ram "ApplicableHeaderTradeSettlement"] := by
  have h1 : transactionTags (rootGenerate exInvTwoRates) =
      some [ram "ApplicableHeaderTradeAgreement",
        ram "ApplicableHeaderTradeDelivery",
        ram "ApplicableHeaderTradeSettlement",
        rsm "IncludedSupplyChainTradeLineItem",
        rsm "IncludedSupplyChainTradeLineItem"] := rfl
  refine ⟨h1, ?_⟩
  rw [h1]
  decide

/-- C2 counterexample: attaching to an empty container with the
`server/utils` embedder registers the attachment in the `/AF` index as
object 1 and in the name tree as object 2 — two distinct indirect
objects holding equal copies of the file specification, not one object
referenced twice. -/
theorem ctrexC2_two_filespec_copies :
    afIds (serverUtilsEmbed pdfEmpty "x") = [1] ∧
    nameTreeNames (serverUtilsEmbed pdfEmpty "x") = ["factur-x.xml"] ∧
    nameTreeIds (serverUtilsEmbed pdfEmpty "x") = [2] ∧
    (1 : Nat) ≠ 2 ∧
    storeAt (serverUtilsEmbed pdfEmpty "x") 1 = some (facturxFilespec 0) ∧
    storeAt (serverUtilsEmbed pdfEmpty "x") 2 = some (facturxFilespec 0) :=
  ⟨rfl, rfl, rfl, by decide, rfl, rfl⟩

/-- C2 amended: for every payload, attaching to a fresh container makes
the attachment reachable from both the `/AF` index and the name tree
under the canonical name, but the two index entries reference two
distinct indirect objects (ids 1 and 2) that hold equal copies of the
file specification — `make_indirect` is called twice on the same direct
dictionary. -/
theorem thmC2_attach_registers_two_copies (xml : String) :
    afIds (serverUtilsEmbed pdfEmpty xml) = [1] ∧
    nameTreeNames (serverUtilsEmbed pdfEmpty xml) = ["factur-x.xml"] ∧
    nameTreeIds (serverUtilsEmbed pdfEmpty xml) = [2] ∧
    (1 : Nat) ≠ 2 ∧
    storeAt (serverUtilsEmbed pdfEmpty xml) 1 = some (facturxFilespec 0) ∧
    storeAt (serverUtilsEmbed pdfEmpty xml) 2 = some (facturxFilespec 0) := by
  rw [serverUtilsEmbed_empty]
  exact ⟨rfl, rfl, rfl, by decide, rfl, rfl⟩

/-- A filesystem holding the original container bytes at the target. -/
def fsOld : FS := [("out.pdf", "OLD")]

/-- C3 counterexample: a failure during the save leaves a prefix of the
new bytes at the target path — the file previously there is not left
byte-for-byte unchanged, because `pdf.save(pdf_path)` writes in place. -/
theorem ctrexC3_midsave_overwrites_target :
    (serverInvoiceEmbedFS fsOld "out.pdf" "NEWBYTES" (.duringSave 3)).2 = false ∧
    fsGet (serverInvoiceEmbedFS fsOld "out.pdf" "NEWBYTES" (.duringSave 3)).1
      "out.pdf" = some "NEW" ∧
    fsGet fsOld "out.pdf" = some "OLD" ∧
    (some "NEW" : Option String) ≠ some "OLD" :=
  ⟨rfl, rfl, rfl, by decide⟩

/-- C3 amended: failures between opening and the save return failure with
the filesystem untouched; only the in-place save itself can corrupt the
target. -/
theorem thmC3_presave_failure_preserves_target (fs : FS) (p b : String) :
    serverInvoiceEmbedFS fs p b .beforeSave = (fs, false) := rfl

/-- C4 counterexample: attaching the same payload twice to a fresh
container leaves two `/AF` entries (objects 1 and 5) and two name-tree
pairs for `factur-x.xml` (objects 2 and 6), not exactly one each; and
the `/Metadata` entry still references the first run's stream (object 3)
even though the second run created a new payload stream (object 7) — the
prior stream is kept, not overwritten. -/
theorem ctrexC4_double_attach_duplicates :
    afIds (serverUtilsEmbed (serverUtilsEmbed pdfEmpty "x") "x") = [1, 5] ∧
    nameTreeNames (serverUtilsEmbed (serverUtilsEmbed pdfEmpty "x") "x") =
      ["factur-x.xml", "factur-x.xml"] ∧
    nameTreeIds (serverUtilsEmbed (serverUtilsEmbed pdfEmpty "x") "x") = [2, 6] ∧
    metadataRef (serverUtilsEmbed pdfEmpty "x") = some 3 ∧
    metadataRef (serverUtilsEmbed (serverUtilsEmbed pdfEmpty "x") "x") = some 3 ∧
    ([1, 5] : List Nat).length ≠ 1 :=
  ⟨rfl, rfl, rfl, rfl, rfl, by decide⟩

/-- C4 amended: a second attach appends a second entry to both indices
for the canonical name and leaves the `/Metadata` reference exactly as
the first attach set it. -/
theorem thmC4_double_attach_effects (xml xml2 : String) :
    afIds (serverUtilsEmbed (serverUtilsEmbed pdfEmpty xml) xml2) = [1, 5] ∧
    nameTreeNames (serverUtilsEmbed (serverUtilsEmbed pdfEmpty xml) xml2) =
      ["factur-x.xml", "factur-x.xml"] ∧
    metadataRef (serverUtilsEmbed pdfEmpty xml) = some 3 ∧
    metadataRef (serverUtilsEmbed (serverUtilsEmbed pdfEmpty xml) xml2) =
      some 3 := by
  rw [serverUtilsEmbed_empty]
  exact ⟨rfl, rfl, rfl, rfl⟩

/-- C5 counterexample: on an invoice whose items carry rates 20 then 10,
the emitted tax groups appear with rate texts `20.00` then `10.00` — the
dictionary's insertion order — although ascending order would put the
10 % group first (20 ≤ 10 fails). -/
theorem ctrexC5_groups_not_ascending :
    headerTaxRateTexts (rootGenerate exInvTwoRates) =
      [some "20.00", some "10.00"] ∧
    (taxRatesOf exInvTwoRates.items).map Prod.fst = [20, 10] ∧
    ¬ ((20:ℚ) ≤ 10) := by
  have ht : taxRatesOf exInvTwoRates.items = [(20, 100), (10, 50)] := by
    norm_num [taxRatesOf, taxStep, assocAdd, exInvTwoRates]
  have f20 : format2 (20:ℚ) = "20.00" := by
    rw [format2_of_cents (20:ℚ) 2000 (by unfold round2cents roundHalfEven; norm_num)]
    rfl
  have f10 : format2 (10:ℚ) = "10.00" := by
    rw [format2_of_cents (10:ℚ) 1000 (by unfold round2cents roundHalfEven; norm_num)]
    rfl
  refine ⟨?_, ?_, by norm_num⟩
  · simp only [headerTaxRateTexts, settlementOf, transactionOf, rootGenerate,
      rootTransaction, rootSettlement, ht, List.map, rootTaxElem, Option.getD,
      f20, f10]
    rfl
  · rw [ht]
    rfl

/-- C5 amended: the grouping loop groups items by exact equality of their
rate values, and the groups are emitted in first-occurrence order of the
rates (the Python dict's insertion order), not in ascending rate order. -/
theorem thmC5_groups_first_occurrence (items : List RItem) :
    (taxRatesOf items).map Prod.fst = firstOccur (items.map rateOf) := by
  unfold taxRatesOf firstOccur
  rw [foldl_taxStep_keys, List.foldl_map]
  rfl

/-- C6 counterexample: on an invoice with an empty item sequence the root
script still produces a complete encoded document — context, header and
a transaction holding agreement, delivery and settlement with zero tax
groups — instead of failing with a `ReconciliationError` (no such error
exists anywhere in the code). -/
theorem ctrexC6_empty_invoice_output :
    XElem.childrenTags (rootGenerate exInvEmpty) =
      [rsm "ExchangedDocumentContext", rsm "ExchangedDocument",
       rsm "SupplyChainTradeTransaction"] ∧
    transactionTags (rootGenerate exInvEmpty) =
      some [ram "ApplicableHeaderTradeAgreement",
        ram "ApplicableHeaderTradeDelivery",
        ram "ApplicableHeaderTradeSettlement"] ∧
    headerTaxRateTexts (rootGenerate exInvEmpty) = [] :=
  ⟨rfl, rfl, rfl⟩

/-- C6 amended: for every invoice with an empty item sequence, generation
succeeds and emits a document whose transaction holds exactly the
agreement, delivery and settlement sections, with no line-item element
and no tax-group element; no error is raised. -/
theorem thmC6_empty_invoice_generates (inv : RInvoice) (h : inv.items = []) :
    transactionTags (rootGenerate inv) =
      some [ram "ApplicableHeaderTradeAgreement",
        ram "ApplicableHeaderTradeDelivery",
        ram "ApplicableHeaderTradeSettlement"] ∧
    headerTaxRateTexts (rootGenerate inv) = [] := by
  constructor
  · unfold transactionTags
    rw [transactionOf_root]
    simp only [Option.map_some', Option.some.injEq]
    unfold XElem.childrenTags rootTransaction el
    simp only [XElem.children, h]
    rfl
  · unfold headerTaxRateTexts
    rw [settlementOf_root]
    simp only [Option.map_some', Option.getD_some]
    unfold rootSettlement XElem.filterChildren el
    simp only [XElem.children, h]
    rfl

theorem thmC6_empty_invoice_generates_witness :
    transactionTags (rootGenerate exInvEmpty) =
      some [ram "ApplicableHeaderTradeAgreement",
        ram "ApplicableHeaderTradeDelivery",
        ram "ApplicableHeaderTradeSettlement"] ∧
    headerTaxRateTexts (rootGenerate exInvEmpty) = [] :=
  thmC6_empty_invoice_generates exInvEmpty rfl

/-- C7 counterexample: on the all-missing input the `XMLService` encoder
produces a document (no `EncodingError` exists anywhere in the code) and
substitutes defaults: empty string for the missing invoice id, the
current date for the missing issue date, `EUR` for the missing currency,
and a transaction with zero line items. -/
theorem ctrexC7_defaults_substituted :
    docIdText (xmlServiceGenerate "20250101" exXSEmpty) = some "" ∧
    issueDateText (xmlServiceGenerate "20250101" exXSEmpty) = some "20250101" ∧
    currencyText (xmlServiceGenerate "20250101" exXSEmpty) = some "EUR" ∧
    transactionTags (xmlServiceGenerate "20250101" exXSEmpty) =
      some [ram "ApplicableHeaderTradeAgreement",
        ram "ApplicableHeaderTradeDelivery",
        ram "ApplicableHeaderTradeSettlement"] :=
  ⟨rfl, rfl, rfl, rfl⟩

/-- C7 amended: for every input and clock reading, a missing invoice id
is emitted as the empty string, a missing issue date as the clock value
(dashes stripped), and a missing currency as `EUR`; generation always
succeeds. -/
theorem thmC7_missing_fields_defaults (now : String) (d : XSData)
    (h1 : d.invoice_number = none) (h2 : d.invoice_date = none)
    (h3 : d.currency = none) :
    docIdText (xmlServiceGenerate now d) = some "" ∧
    issueDateText (xmlServiceGenerate now d) = some (removeDashes now) ∧
    currencyText (xmlServiceGenerate now d) = some "EUR" := by
  refine ⟨?_, ?_, ?_⟩
  · rw [docIdText_xmlService, h1]
    rfl
  · rw [issueDateText_xmlService, h2]
    rfl
  · unfold currencyText
    rw [settlementOf_xmlService]
    show ((xsTotals d).findChild (ram "InvoiceCurrencyCode")).bind XElem.text =
      some "EUR"
    rw [xsTotals_findCurrency]
    show some (d.currency.getD "EUR") = some "EUR"
    rw [h3]
    rfl

theorem thmC7_missing_fields_defaults_witness :
    docIdText (xmlServiceGenerate "20250101" exXSEmpty) = some "" ∧
    issueDateText (xmlServiceGenerate "20250101" exXSEmpty) =
      some (removeDashes "20250101") ∧
    currencyText (xmlServiceGenerate "20250101" exXSEmpty) = some "EUR" :=
  thmC7_missing_fields_defaults "20250101" exXSEmpty rfl rfl rfl

/-- C8 counterexample: at the rounding boundary the sum of the emitted
(rounded) per-group bases differs from the sum of the emitted (rounded)
line net amounts: two items of net `0.515625` in one 20 % group give a
group basis of `1.03` (rounded once on the raw sum) while the line
amounts round per line to `0.52` each, summing to `1.04`. -/
theorem ctrexC8_rounded_sums_differ :
    ((taxRatesOf exInvRound.items).map (fun rv => round2 rv.2)).sum = 103/100 ∧
    (exInvRound.items.map (fun it => round2 (amountOf it))).sum = 26/25 ∧
    ((103:ℚ)/100) ≠ 26/25 ∧
    headerTaxBasisTexts (rootGenerate exInvRound) = [some "1.03"] ∧
    lineTotalTexts (rsm "IncludedSupplyChainTradeLineItem")
      (rootGenerate exInvRound) = [some "0.52", some "0.52"] := by
  have ht : taxRatesOf exInvRound.items = [(20, 33/32)] := by
    norm_num [taxRatesOf, taxStep, assocAdd, exInvRound]
  have rc1 : round2cents ((33:ℚ)/32) = 103 := by
    unfold round2cents roundHalfEven
    norm_num
  have rc2 : round2cents ((1:ℚ) * (33/64)) = 52 := by
    unfold round2cents roundHalfEven
    norm_num
  refine ⟨?_, ?_, by norm_num, ?_, ?_⟩
  · rw [ht]
    simp only [List.map_cons, List.map_nil, List.sum_cons, List.sum_nil]
    unfold round2
    rw [rc1]
    norm_num
  · simp only [exInvRound, List.map_cons, List.map_nil, List.sum_cons,
      List.sum_nil]
    unfold round2 amountOf
    simp only [Option.getD_some]
    rw [rc2]
    norm_num
  · have fb : format2 ((1:ℚ) * (33/64) + 1 * (33/64)) = "1.03" := by
      rw [format2_of_cents _ 103 (by unfold round2cents roundHalfEven; norm_num)]
      rfl
    simp only [headerTaxBasisTexts, settlementOf, transactionOf, rootGenerate,
      rootTransaction, rootSettlement, ht, List.map, rootTaxElem, Option.getD,
      fb]
    rfl
  · have fl : format2 ((1:ℚ) * (33/64)) = "0.52" := by
      rw [format2_of_cents ((1:ℚ) * (33/64)) 52
        (by unfold round2cents roundHalfEven; norm_num)]
      rfl
    simp only [lineTotalTexts, transactionOf, rootGenerate, rootTransaction,
      rootLineItem, exInvRound, List.enum, List.map, Option.getD, fl]
    rfl

/-- C8 amended: the tax groups partition the items — the group keys are
distinct and the raw (unrounded) per-group bases sum to the raw line
amounts; the equality of the *rounded* sums claimed by the spec fails at
rounding-boundary inputs (see the counterexample). -/
theorem thmC8_raw_partition_sums (items : List RItem) :
    ((taxRatesOf items).map Prod.fst).Nodup ∧
    ((taxRatesOf items).map Prod.snd).sum = (items.map amountOf).sum := by
  constructor
  · exact foldl_taxStep_nodup items [] (by simp)
  · simpa using foldl_taxStep_sum items []

/-- C9 counterexample: two invocations of the metadata builder with
identical content and invoice number but different internal clock
readings produce different payloads — the timestamp is read inside the
function, not passed in. -/
theorem ctrexC9_clock_changes_payload :
    generateXMPMetadata (fun s => s) "c" "I" "T1" ≠
      generateXMPMetadata (fun s => s) "c" "I" "T2" := by
  decide

/-- C9 amended: the builder performs no I/O besides the internal clock
read; modelling the hash primitive and the clock reading as explicit
inputs, the payload is a deterministic function of the content hash, the
invoice number and the clock value — identical hashes give identical
payloads. -/
theorem thmC9_hash_determines_payload (h : String → String)
    (c c' n t : String) (hh : h c = h c') :
    generateXMPMetadata h c n t = generateXMPMetadata h c' n t := by
  unfold generateXMPMetadata
  rw [hh]

theorem thmC9_hash_determines_payload_witness :
    generateXMPMetadata (fun _ => "H") "a" "I" "T" =
      generateXMPMetadata (fun _ => "H") "b" "I" "T" :=
  thmC9_hash_determines_payload (fun _ => "H") "a" "b" "I" "T" rfl

/-- C10: in the `XMLService` encoder, for every input and every line
item the emitted line-level `RateApplicablePercent` text is the constant
`"20"` (one per line item, ignoring any per-item rate in the input), and
when the input has no `tax` key the header-level rate text is `"20"` as
well. -/
theorem thmC10_line_rate_constant (now : String) (d : XSData) :
    lineRateTexts (ram "IncludedSupplyChainTradeLineItem")
        (xmlServiceGenerate now d) =
      List.replicate (xsEffectiveItems d).length (some "20") ∧
    (d.tax = none →
      headerTaxRateTexts (xmlServiceGenerate now d) = [some "20"]) :=
  ⟨lineRateTexts_xmlService now d, fun h => headerRateText_xmlService now d h⟩

/-- One-item input for instantiating the `XMLService` theorems. -/
def exXSOneItem : XSData :=
  { items := some [{ description := some "P", quantity := some 2
                   , unit_price := some 5 }] }

theorem thmC10_line_rate_constant_witness :
    lineRateTexts (ram "IncludedSupplyChainTradeLineItem")
        (xmlServiceGenerate "20250101" exXSOneItem) = [some "20"] ∧
    headerTaxRateTexts (xmlServiceGenerate "20250101" exXSOneItem) =
      [some "20"] := by
  have h := thmC10_line_rate_constant "20250101" exXSOneItem
  exact ⟨h.1, h.2 rfl⟩

end FacturX
